import Mathlib

set_option maxRecDepth 8000

/-
  Verification of the figjam2pptx node-extraction and format-conversion
  pipeline, shallowly embedded from the two source files
  src/code.ts (extraction) and src/pptx-converter.ts (serialization).

  Host numbers are modelled as rationals, colour channels after
  normalization as integers. The host "mixed" sentinel and the
  null/undefined cases of optional host values are explicit constructors.
-/

/-- A raw host colour: fractional channels in the unit interval (host side). -/
structure RawColor where
  r : ℚ
  g : ℚ
  b : ℚ
deriving DecidableEq, Repr

/-- A raw host colour with alpha, as it appears on gradient stops. -/
structure RawColorA where
  r : ℚ
  g : ℚ
  b : ℚ
  a : ℚ
deriving DecidableEq, Repr

/-- A raw gradient stop from the host. -/
structure RawStop where
  position : ℚ
  color : RawColorA
deriving DecidableEq, Repr

/-- A host paint descriptor. The constructor distinguishes the declared
    `type` string of the source (SOLID, IMAGE, the GRADIENT family via its
    tag string, anything else as `other`). `visible` is the host optional
    boolean flag; `opacity` is optional. -/
inductive RawPaint where
  | solid (color : RawColor) (opacity : Option ℚ) (visible : Option Bool)
  | image (imageHash : Option String) (scaleMode : String) (opacity : Option ℚ) (visible : Option Bool)
  | gradient (gradientType : String) (gradientStops : List RawStop) (opacity : Option ℚ) (visible : Option Bool)
  | other (visible : Option Bool)
deriving DecidableEq, Repr

/-- The host `visible` flag of a raw paint (`fill.visible`). -/
def RawPaint.visibleFlag : RawPaint → Option Bool
  | .solid _ _ v => v
  | .image _ _ _ v => v
  | .gradient _ _ _ v => v
  | .other v => v

/-- The argument of `extractFills` in the source, of TypeScript type
    `readonly Paint[] | typeof figma.mixed` where the value may also be
    null or undefined (the `!fills` test): a paint list, the mixed
    sentinel, or the absent value. -/
inductive FillsInput where
  | mixed
  | nullish
  | paints (l : List RawPaint)
deriving DecidableEq, Repr

/-- An extracted colour with integer channels, as built by `extractFills`. -/
structure RGB where
  r : ℤ
  g : ℤ
  b : ℤ
deriving DecidableEq, Repr

/-- An extracted gradient-stop colour: integer channels, alpha kept as is. -/
structure RGBA where
  r : ℤ
  g : ℤ
  b : ℤ
  a : ℚ
deriving DecidableEq, Repr

/-- An extracted gradient stop. -/
structure GradientStop where
  position : ℚ
  color : RGBA
deriving DecidableEq, Repr

/-- An extracted paint as produced by `extractFills` in src/code.ts:
    the `type` field of the emitted record is the constructor tag
    (solid, image, gradient, unknown). -/
inductive ExtractedPaint where
  | solid (color : RGB) (opacity : ℚ)
  | image (imageHash : Option String) (scaleMode : String) (opacity : ℚ)
  | gradient (gradientType : String) (gradientStops : List GradientStop) (opacity : ℚ)
  | unknown
deriving DecidableEq, Repr

/-- JavaScript `Math.round` on a (nonnegative or negative) rational:
    floor of the value plus one half. -/
def jsRound (q : ℚ) : ℤ := ⌊q + 1 / 2⌋

/-- The channel normalization of src/code.ts lines 233-235 and 253-255:
    `Math.round(c * 255)`. -/
def normChannel (c : ℚ) : ℤ := jsRound (c * 255)

/-- Rounding half away from zero, the rule named by the specification. -/
def roundHalfAwayFromZero (q : ℚ) : ℤ :=
  if q < 0 then ⌈q - 1 / 2⌉ else ⌊q + 1 / 2⌋

/-- src/code.ts lines 221-264, `extractFills`: mixed or nullish input
    gives the empty list; otherwise paints whose `visible` flag is not
    explicitly false are kept and each is mapped by declared kind, with
    opacity defaulting to 1 when absent and unrecognized kinds becoming
    an `unknown` placeholder. -/
def extractFills (fills : FillsInput) : List ExtractedPaint :=
  match fills with
  | .mixed => []
  | .nullish => []
  | .paints l =>
    (l.filter (fun fill => fill.visibleFlag ≠ some false)).map (fun fill =>
      match fill with
      | .solid c op _ =>
        .solid ⟨normChannel c.r, normChannel c.g, normChannel c.b⟩ (op.getD 1)
      | .image h sm op _ => .image h sm (op.getD 1)
      | .gradient gt stops op _ =>
        .gradient gt
          (stops.map (fun stop =>
            ⟨stop.position,
             ⟨normChannel stop.color.r, normChannel stop.color.g,
              normChannel stop.color.b, stop.color.a⟩⟩))
          (op.getD 1)
      | .other _ => .unknown)

/-- src/code.ts lines 266-269, `extractStrokes`: same logic as fills. -/
def extractStrokes (strokes : FillsInput) : List ExtractedPaint :=
  extractFills strokes

/-- A host connector endpoint: an optional fixed position and an optional
    attached-node reference (src/code.ts lines 188-197 read both). -/
structure RawPos where
  x : ℚ
  y : ℚ
deriving DecidableEq, Repr

/-- A host connector endpoint record. -/
structure HostEndpoint where
  position : Option RawPos := none
  endpointNodeId : Option String := none
deriving DecidableEq, Repr

/-- The non-recursive fields of a host scene node, as the dynamic host
    object read by src/code.ts: identity, geometry (width, height and
    rotation may be absent on some variants, hence optional), visibility,
    paints, and the variant-specific raw fields the extractors read. -/
structure HostProps where
  id : String := ""
  name : String := ""
  type : String := ""
  x : ℚ := 0
  y : ℚ := 0
  width : Option ℚ := none
  height : Option ℚ := none
  rotation : Option ℚ := none
  visible : Bool := true
  fills : FillsInput := .paints []
  strokes : FillsInput := .paints []
  strokeWeight : ℚ := 1
  cornerRadius : ℚ := 0
  pointCount : ℕ := 3
  shapeType : String := ""
  text : String := ""
  connectorStart : HostEndpoint := {}
  connectorEnd : HostEndpoint := {}
deriving Repr

/-- A host scene node: its flat properties plus its child list (read only
    for GROUP and FRAME nodes). -/
inductive HostNode where
  | mk (props : HostProps) (children : List HostNode)

/-- The flat properties of a host node. -/
def HostNode.props : HostNode → HostProps
  | .mk p _ => p

/-- The children of a host node. -/
def HostNode.children : HostNode → List HostNode
  | .mk _ c => c

/-- An extracted connector endpoint (src/code.ts lines 188-197). -/
structure ExtractedEndpoint where
  x : ℚ
  y : ℚ
  endpointNodeId : Option String
deriving DecidableEq, Repr

/-- The flat fields of the `ExtractedNodeData` record of src/code.ts
    lines 4-23; optional fields absent unless an extractor sets them. -/
structure NodeProps where
  id : String := ""
  name : String := ""
  type : String := ""
  x : ℚ := 0
  y : ℚ := 0
  width : ℚ := 0
  height : ℚ := 0
  rotation : ℚ := 0
  visible : Bool := true
  fills : Option (List ExtractedPaint) := none
  strokes : Option (List ExtractedPaint) := none
  strokeWeight : Option ℚ := none
  text : Option String := none
  cornerRadius : Option ℚ := none
  shapeType : Option String := none
  connectorStart : Option ExtractedEndpoint := none
  connectorEnd : Option ExtractedEndpoint := none
deriving DecidableEq, Repr

/-- An extracted node: flat fields plus the optional `children` list,
    set only by the container extractor. -/
inductive ExtractedNodeData where
  | mk (props : NodeProps) (children : Option (List ExtractedNodeData))

/-- The flat fields of an extracted node. -/
def ExtractedNodeData.props : ExtractedNodeData → NodeProps
  | .mk p _ => p

/-- The children field of an extracted node. -/
def ExtractedNodeData.children : ExtractedNodeData → Option (List ExtractedNodeData)
  | .mk _ c => c

/-- A base-only extracted node used as a default value for `Option.getD`;
    it is never actually produced by the development. -/
def defaultExtracted : ExtractedNodeData := .mk {} none

/-- JavaScript `v || d` on an optional number: the default when the value
    is absent or zero (falsy), the value otherwise. -/
def jsOrOpt (v : Option ℚ) (d : ℚ) : ℚ :=
  match v with
  | some w => if w = 0 then d else w
  | none => d

/-- JavaScript `v || d` on a number: the default when the value is zero. -/
def jsOrQ (v d : ℚ) : ℚ := if v = 0 then d else v

/-- src/code.ts lines 82-92: the base record common to all nodes, with
    width, height and rotation read defensively (0 when the host node has
    no such field). All variant fields are absent. -/
def baseData (p : HostProps) : NodeProps :=
  { id := p.id, name := p.name, type := p.type, x := p.x, y := p.y,
    width := p.width.getD 0, height := p.height.getD 0,
    rotation := p.rotation.getD 0, visible := p.visible }

/-- src/code.ts lines 128-136, `extractRectangleData`. -/
def extractRectangleData (p : HostProps) (b : NodeProps) : NodeProps :=
  { b with cornerRadius := some p.cornerRadius,
           fills := some (extractFills p.fills),
           strokes := some (extractStrokes p.strokes),
           strokeWeight := some p.strokeWeight }

/-- src/code.ts lines 138-145, `extractEllipseData`. -/
def extractEllipseData (p : HostProps) (b : NodeProps) : NodeProps :=
  { b with fills := some (extractFills p.fills),
           strokes := some (extractStrokes p.strokes),
           strokeWeight := some p.strokeWeight }

/-- src/code.ts lines 147-155, `extractPolygonData`: the shape type
    encodes the polygon side count. -/
def extractPolygonData (p : HostProps) (b : NodeProps) : NodeProps :=
  { b with fills := some (extractFills p.fills),
           strokes := some (extractStrokes p.strokes),
           strokeWeight := some p.strokeWeight,
           shapeType := some ("polygon-" ++ toString p.pointCount) }

/-- src/code.ts lines 157-165, `extractShapeWithTextData`. -/
def extractShapeWithTextData (p : HostProps) (b : NodeProps) : NodeProps :=
  { b with shapeType := some p.shapeType,
           fills := some (extractFills p.fills),
           strokes := some (extractStrokes p.strokes),
           text := some p.text }

/-- src/code.ts lines 167-173, `extractStickyData`: fills and text only,
    no strokes. -/
def extractStickyData (p : HostProps) (b : NodeProps) : NodeProps :=
  { b with fills := some (extractFills p.fills),
           text := some p.text }

/-- src/code.ts lines 175-181, `extractTextData`. -/
def extractTextData (p : HostProps) (b : NodeProps) : NodeProps :=
  { b with text := some p.text,
           fills := some (extractFills p.fills) }

/-- src/code.ts lines 188-197: one connector endpoint, position
    defaulting to 0 through the `position?.x || 0` idiom. -/
def extractEndpoint (e : HostEndpoint) : ExtractedEndpoint :=
  { x := jsOrOpt (e.position.map RawPos.x) 0,
    y := jsOrOpt (e.position.map RawPos.y) 0,
    endpointNodeId := e.endpointNodeId }

/-- src/code.ts lines 183-199, `extractConnectorData`. -/
def extractConnectorData (p : HostProps) (b : NodeProps) : NodeProps :=
  { b with strokes := some (extractStrokes p.strokes),
           strokeWeight := some p.strokeWeight,
           connectorStart := some (extractEndpoint p.connectorStart),
           connectorEnd := some (extractEndpoint p.connectorEnd) }

mutual

/-- src/code.ts lines 80-126, `extractNodeData`: build the base record,
    then dispatch on the type tag; GROUP and FRAME recurse over children
    (lines 201-215, `extractContainerData`); unknown tags return the base
    record. The TypeScript return type admits null but no branch returns
    it. -/
def extractNodeData : HostNode → Option ExtractedNodeData
  | .mk p children =>
    let b := baseData p
    if p.type = "RECTANGLE" then some (.mk (extractRectangleData p b) none)
    else if p.type = "ELLIPSE" then some (.mk (extractEllipseData p b) none)
    else if p.type = "POLYGON" then some (.mk (extractPolygonData p b) none)
    else if p.type = "SHAPE_WITH_TEXT" then some (.mk (extractShapeWithTextData p b) none)
    else if p.type = "STICKY" then some (.mk (extractStickyData p b) none)
    else if p.type = "TEXT" then some (.mk (extractTextData p b) none)
    else if p.type = "CONNECTOR" then some (.mk (extractConnectorData p b) none)
    else if p.type = "GROUP" ∨ p.type = "FRAME" then
      some (.mk b (some (extractList children)))
    else some (.mk b none)

/-- The extraction loop shared by src/code.ts lines 55-60 (selection) and
    lines 204-209 (container children): extract each node, keeping the
    result when it is non-null. -/
def extractList : List HostNode → List ExtractedNodeData
  | [] => []
  | n :: rest =>
    match extractNodeData n with
    | some d => d :: extractList rest
    | none => extractList rest

end

/-- The page metadata snapshot (src/code.ts lines 66-70). -/
structure PageInfo where
  name : String
  width : ℚ
  height : ℚ
deriving DecidableEq, Repr

/-- The outcome of `processSelection`: either the user-facing error
    message posted to the UI, or the data-ready payload. -/
inductive ProcessResult where
  | postedError (message : String)
  | dataReady (data : List ExtractedNodeData) (pageInfo : PageInfo)

/-- src/code.ts lines 41-78, `processSelection`: empty selection posts the
    user-facing error message and returns before any extraction; otherwise
    every selected node is extracted in order and the data-ready message is
    posted. The try/catch around the loop is vacuous in this pure model
    because extraction is total. -/
def processSelection (selection : List HostNode) (page : PageInfo) : ProcessResult :=
  if selection.length = 0 then
    .postedError "Please select at least one object to export"
  else
    .dataReady (extractList selection) page

/-- A point as the converter emits it (src/pptx-converter.ts line 6). -/
structure XY where
  x : ℚ
  y : ℚ
deriving DecidableEq, Repr

/-- A size as the converter emits it (src/pptx-converter.ts line 7). -/
structure WH where
  width : ℚ
  height : ℚ
deriving DecidableEq, Repr

/-- The `PPTXFill` record of src/pptx-converter.ts lines 15-20. -/
structure PPTXFill where
  type : String
  color : Option RGB := none
  opacity : Option ℚ := none
  gradientStops : Option (List GradientStop) := none
deriving DecidableEq, Repr

/-- The `PPTXStroke` record of src/pptx-converter.ts lines 22-26. -/
structure PPTXStroke where
  color : RGB
  width : ℚ
  opacity : Option ℚ := none
deriving DecidableEq, Repr

/-- The nested `properties` object built by `nodeToShape`
    (src/pptx-converter.ts lines 119-125). -/
structure ShapeProps where
  cornerRadius : Option ℚ := none
  shapeType : Option String := none
deriving DecidableEq, Repr

/-- The `PPTXShape` record of src/pptx-converter.ts lines 4-13. -/
structure PPTXShape where
  type : String
  position : XY
  size : WH
  rotation : ℚ
  fill : Option PPTXFill := none
  stroke : Option PPTXStroke := none
  text : Option String := none
  properties : Option ShapeProps := none
deriving DecidableEq, Repr

/-- The lookup table of src/pptx-converter.ts lines 209-220, in source
    order; note the tenth LINE entry. -/
def pptxTypeMapping : List (String × String) :=
  [("RECTANGLE", "rectangle"),
   ("ELLIPSE", "ellipse"),
   ("POLYGON", "polygon"),
   ("SHAPE_WITH_TEXT", "shape"),
   ("STICKY", "textbox"),
   ("TEXT", "text"),
   ("CONNECTOR", "line"),
   ("GROUP", "group"),
   ("FRAME", "frame"),
   ("LINE", "line")]

/-- JavaScript `v || d` on an optional string: the default when the value
    is absent or the empty string (falsy). -/
def jsOrStr (v : Option String) (d : String) : String :=
  match v with
  | some s => if s = "" then d else s
  | none => d

/-- src/pptx-converter.ts lines 208-223, `mapNodeTypeToPPTX`:
    table lookup with the falsy-default idiom giving "shape". -/
def mapNodeTypeToPPTX (nodeType : String) : String :=
  jsOrStr (pptxTypeMapping.lookup nodeType) "shape"

/-- JavaScript truthiness of an optional string field (`if (node.text)`):
    present and nonempty. -/
def truthyStr (v : Option String) : Bool :=
  match v with
  | some s => s ≠ ""
  | none => false

/-- The initial shape record of `nodeToShape`
    (src/pptx-converter.ts lines 76-81). -/
def baseShape (p : NodeProps) : PPTXShape :=
  { type := mapNodeTypeToPPTX p.type,
    position := ⟨p.x, p.y⟩,
    size := ⟨p.width, p.height⟩,
    rotation := p.rotation }

/-- src/pptx-converter.ts lines 83-99: add the fill from the first paint
    when the fills list is nonempty and that paint is solid or gradient. -/
def applyFill (p : NodeProps) (s : PPTXShape) : PPTXShape :=
  match p.fills with
  | some (fill :: _) =>
    match fill with
    | .solid c op =>
      { s with fill := some { type := "solid", color := some c, opacity := some op } }
    | .gradient _ stops op =>
      { s with fill := some { type := "gradient", gradientStops := some stops, opacity := some op } }
    | _ => s
  | _ => s

/-- src/pptx-converter.ts lines 101-111: add the stroke from the first
    stroke paint when strokes is nonempty, `strokeWeight` is truthy, and
    that paint is solid. -/
def applyStroke (p : NodeProps) (s : PPTXShape) : PPTXShape :=
  match p.strokes, p.strokeWeight with
  | some (st :: _), some w =>
    if w = 0 then s
    else
      match st with
      | .solid c op => { s with stroke := some { color := c, width := w, opacity := some op } }
      | _ => s
  | _, _ => s

/-- src/pptx-converter.ts lines 113-116: copy the text when truthy. -/
def applyText (p : NodeProps) (s : PPTXShape) : PPTXShape :=
  match p.text with
  | some t => if t = "" then s else { s with text := some t }
  | none => s

/-- The `{ ...shape.properties, cornerRadius }` spread of line 120. -/
def propsWithCornerRadius (o : Option ShapeProps) (cr : ℚ) : ShapeProps :=
  match o with
  | some pr => { pr with cornerRadius := some cr }
  | none => { cornerRadius := some cr }

/-- The `{ ...shape.properties, shapeType }` spread of line 124. -/
def propsWithShapeType (o : Option ShapeProps) (st : String) : ShapeProps :=
  match o with
  | some pr => { pr with shapeType := some st }
  | none => { shapeType := some st }

/-- src/pptx-converter.ts lines 118-121: bundle `cornerRadius` into the
    properties object when the field is set (also when it is 0). -/
def applyCornerRadius (p : NodeProps) (s : PPTXShape) : PPTXShape :=
  match p.cornerRadius with
  | some cr => { s with properties := some (propsWithCornerRadius s.properties cr) }
  | none => s

/-- src/pptx-converter.ts lines 123-125: bundle `shapeType` into the
    properties object when the field is truthy. -/
def applyShapeType (p : NodeProps) (s : PPTXShape) : PPTXShape :=
  match p.shapeType with
  | some st =>
    if st = "" then s
    else { s with properties := some (propsWithShapeType s.properties st) }
  | none => s

/-- src/pptx-converter.ts lines 75-128, `nodeToShape`: the base record
    followed by the five sequential field updates of the source. -/
def nodeToShape (node : ExtractedNodeData) : PPTXShape :=
  applyShapeType node.props
    (applyCornerRadius node.props
      (applyText node.props
        (applyStroke node.props
          (applyFill node.props (baseShape node.props)))))

/-- The `shapes` array of the JSON export document
    (src/pptx-converter.ts line 66): every node through `nodeToShape`. -/
def toJSONShapes (nodes : List ExtractedNodeData) : List PPTXShape :=
  nodes.map nodeToShape

/-- Replace every occurrence of the single character `c` in `s` by `r`:
    the semantics of one global single-character regex replacement pass. -/
def replaceChar (s : String) (c : Char) (r : String) : String :=
  String.join (s.toList.map (fun ch => if ch = c then r else String.singleton ch))

/-- The single-quote character, written by code point to keep the file
    free of quote literals. -/
def aposChar : Char := Char.ofNat 39

/-- src/pptx-converter.ts lines 228-237, `escapeXML`: five sequential
    global replacement passes, ampersand first. -/
def escapeXML (str : String) : String :=
  replaceChar
    (replaceChar
      (replaceChar
        (replaceChar
          (replaceChar str (Char.ofNat 38) "&amp;")
          (Char.ofNat 60) "&lt;")
        (Char.ofNat 62) "&gt;")
      (Char.ofNat 34) "&quot;")
    aposChar "&apos;"

/-- Decimal attribute text for a rational: the integer text when the value
    is integral (the only case this development evaluates; it then agrees
    with the host number formatting). -/
def qStr (q : ℚ) : String :=
  if q.den = 1 then toString q.num else toString q

/-- `'  '.repeat(indent)` (src/pptx-converter.ts line 134). -/
def repeatStr (s : String) (n : ℕ) : String :=
  String.join (List.replicate n s)

/-- One gradient stop line of the XML serializer
    (src/pptx-converter.ts line 158). -/
def stopLine (spaces : String) (stop : GradientStop) : String :=
  spaces ++ "      <stop position=\"" ++ qStr stop.position
    ++ "\" r=\"" ++ toString stop.color.r
    ++ "\" g=\"" ++ toString stop.color.g
    ++ "\" b=\"" ++ toString stop.color.b
    ++ "\" a=\"" ++ qStr stop.color.a ++ "\"/>\n"

/-- src/pptx-converter.ts lines 149-163: the fill element, emitted when
    the fills list is nonempty; only the first paint is examined, a solid
    or gradient renders its line, anything else leaves the element empty.
    The gradient type attribute value is inserted without escaping. -/
def fillBlock (p : NodeProps) (spaces : String) : String :=
  match p.fills with
  | some (fill :: _) =>
    spaces ++ "  <fill>\n"
    ++ (match fill with
        | .solid c op =>
          spaces ++ "    <solid r=\"" ++ toString c.r
            ++ "\" g=\"" ++ toString c.g
            ++ "\" b=\"" ++ toString c.b
            ++ "\" opacity=\"" ++ qStr (jsOrQ op 1) ++ "\"/>\n"
        | .gradient gt stops _ =>
          spaces ++ "    <gradient type=\"" ++ gt ++ "\">\n"
          ++ String.join (stops.map (stopLine spaces))
          ++ spaces ++ "    </gradient>\n"
        | _ => "")
    ++ spaces ++ "  </fill>\n"
  | _ => ""

/-- src/pptx-converter.ts lines 165-173: the stroke element, emitted when
    the strokes list is nonempty, with the `weight` attribute from the
    `node.strokeWeight || 1` idiom and the colour line from the first
    stroke when it is solid. -/
def strokeBlock (p : NodeProps) (spaces : String) : String :=
  match p.strokes with
  | some (st :: _) =>
    spaces ++ "  <stroke weight=\"" ++ qStr (jsOrOpt p.strokeWeight 1) ++ "\">\n"
    ++ (match st with
        | .solid c op =>
          spaces ++ "    <color r=\"" ++ toString c.r
            ++ "\" g=\"" ++ toString c.g
            ++ "\" b=\"" ++ toString c.b
            ++ "\" opacity=\"" ++ qStr (jsOrQ op 1) ++ "\"/>\n"
        | _ => "")
    ++ spaces ++ "  </stroke>\n"
  | _ => ""

/-- src/pptx-converter.ts lines 176-178: the CDATA-wrapped text element,
    emitted when the text field is truthy, with the text unescaped. -/
def textBlock (p : NodeProps) (spaces : String) : String :=
  match p.text with
  | some t =>
    if t = "" then ""
    else spaces ++ "  <text><![CDATA[" ++ t ++ "]]></text>\n"
  | none => ""

/-- src/pptx-converter.ts lines 180-190: the properties element, emitted
    when `cornerRadius` is set or `shapeType` is truthy. -/
def propsBlock (p : NodeProps) (spaces : String) : String :=
  if p.cornerRadius.isSome || truthyStr p.shapeType then
    spaces ++ "  <properties>\n"
    ++ (match p.cornerRadius with
        | some cr => spaces ++ "    <cornerRadius>" ++ qStr cr ++ "</cornerRadius>\n"
        | none => "")
    ++ (match p.shapeType with
        | some st =>
          if st = "" then ""
          else spaces ++ "    <shapeType>" ++ escapeXML st ++ "</shapeType>\n"
        | none => "")
    ++ spaces ++ "  </properties>\n"
  else ""

mutual

/-- src/pptx-converter.ts lines 133-203, `nodeToXML`: the shape element
    with escaped type, id and name, the geometry block, then the optional
    fill, stroke, text and properties blocks, and the recursive child
    group when the children list is present and nonempty. -/
def nodeToXML : ExtractedNodeData → ℕ → String
  | .mk p children, indent =>
    let spaces := repeatStr "  " indent
    spaces ++ "<shape>\n"
    ++ spaces ++ "  <type>" ++ escapeXML (mapNodeTypeToPPTX p.type) ++ "</type>\n"
    ++ spaces ++ "  <id>" ++ escapeXML p.id ++ "</id>\n"
    ++ spaces ++ "  <name>" ++ escapeXML p.name ++ "</name>\n"
    ++ spaces ++ "  <geometry>\n"
    ++ spaces ++ "    <position x=\"" ++ qStr p.x ++ "\" y=\"" ++ qStr p.y ++ "\"/>\n"
    ++ spaces ++ "    <size width=\"" ++ qStr p.width ++ "\" height=\"" ++ qStr p.height ++ "\"/>\n"
    ++ spaces ++ "    <rotation degrees=\"" ++ qStr p.rotation ++ "\"/>\n"
    ++ spaces ++ "  </geometry>\n"
    ++ fillBlock p spaces
    ++ strokeBlock p spaces
    ++ textBlock p spaces
    ++ propsBlock p spaces
    ++ (match children with
        | some cs =>
          if cs.length > 0 then
            spaces ++ "  <group>\n" ++ xmlList cs (indent + 2)
              ++ spaces ++ "  </group>\n"
          else ""
        | none => "")
    ++ spaces ++ "</shape>\n"

/-- The `nodes.forEach` concatenation over a list of nodes
    (src/pptx-converter.ts lines 43-45 and 195-197). -/
def xmlList : List ExtractedNodeData → ℕ → String
  | [], _ => ""
  | c :: rest, indent => nodeToXML c indent ++ xmlList rest indent

end

/-- The nine node type tags with a dedicated extraction branch in
    src/code.ts lines 95-119. -/
def supportedNodeTypes : List String :=
  ["RECTANGLE", "ELLIPSE", "POLYGON", "SHAPE_WITH_TEXT", "STICKY",
   "TEXT", "CONNECTOR", "GROUP", "FRAME"]

/-- The concrete Rectangle selection of the scenario: position 100 by 200,
    size 300 by 150, no rotation, corner radius 8, one visible solid fill
    with channels 1, 0.39 and 0.2 at opacity 1. -/
def c1Host : HostNode :=
  .mk { id := "r1", name := "Rect", type := "RECTANGLE",
        x := 100, y := 200, width := some 300, height := some 150,
        rotation := some 0, visible := true,
        fills := .paints [.solid ⟨1, 39/100, 1/5⟩ (some 1) (some true)],
        strokes := .paints [], strokeWeight := 1, cornerRadius := 8 } []

/-- The extraction of the scenario Rectangle. -/
def c1Extracted : ExtractedNodeData := (extractNodeData c1Host).getD defaultExtracted

/-- A host node of an unsupported type tag. -/
def widgetHost : HostNode := .mk { id := "w", name := "w", type := "WIDGET" } []

/-- A page metadata snapshot for concrete runs. -/
def testPage : PageInfo := { name := "Page 1", width := 800, height := 600 }

/-- An extracted node whose nonempty fills list starts with an image
    paint. -/
def imageFillProps : NodeProps :=
  { id := "i", name := "i", type := "RECTANGLE",
    fills := some [.image (some "hash") "FILL" 1] }

/-- An extracted node whose strokes list is nonempty but whose
    strokeWeight field is unset. -/
def noWeightProps : NodeProps :=
  { id := "s", name := "s", type := "RECTANGLE",
    strokes := some [.solid ⟨1, 2, 3⟩ 1] }

/-- An extracted node whose first fill is a gradient with a less-than sign
    as its gradient type tag. -/
def gradientLtProps : NodeProps :=
  { id := "g", name := "g", type := "RECTANGLE",
    fills := some [.gradient "<" [] 1] }

/-- An extracted node with a solid stroke and a strokeWeight explicitly
    set to zero. -/
def zeroWeightProps : NodeProps :=
  { id := "c", name := "c", type := "CONNECTOR",
    strokes := some [.solid ⟨0, 0, 0⟩ 1], strokeWeight := some 0 }

/-- A witness node for the escaping theorem: truthy text and a gradient
    first fill. -/
def cdataWitnessProps : NodeProps :=
  { id := "t", name := "t", type := "STICKY",
    text := some "T & T", fills := some [.gradient "GRADIENT_LINEAR" [] 1] }

/-- A witness node for the stroke theorem: a solid stroke with a set,
    nonzero strokeWeight. -/
def weightWitnessProps : NodeProps :=
  { id := "e", name := "e", type := "ELLIPSE",
    strokes := some [.solid ⟨1, 2, 3⟩ 1], strokeWeight := some 2 }

/-- Every branch of the extractor returns a value: the null-returning
    type of the source is never inhabited by null. -/
theorem extractNodeData_isSome (n : HostNode) : (extractNodeData n).isSome = true := by
  obtain ⟨p, cs⟩ := n
  simp only [extractNodeData]
  split_ifs <;> simp

/-- The shared extraction loop keeps exactly one entry per input node, in
    input order: its null-skipping guard never fires. -/
theorem extractList_eq_map (l : List HostNode) :
    extractList l = l.map (fun n => (extractNodeData n).getD defaultExtracted) := by
  induction l with
  | nil => simp [extractList]
  | cons n rest ih =>
    obtain ⟨d, hd⟩ := Option.isSome_iff_exists.mp (extractNodeData_isSome n)
    simp [extractList, hd, ih]

/-- C4: on the mixed sentinel, paint normalization returns the empty
    sequence, for fills and for strokes alike: the mixed state is treated
    as absent, never as an error or a partial item. -/
theorem c4_mixed_paints_empty :
    extractFills FillsInput.mixed = [] ∧ extractStrokes FillsInput.mixed = [] :=
  ⟨rfl, rfl⟩

/-- C5: for channel inputs in the unit interval the normalized channel is
    an integer in 0..255, the rounding agrees with round-half-away-from-
    zero after scaling by 255, and normalization is monotone. -/
theorem c5_channel_normalization (c₁ c₂ : ℚ)
    (h0 : 0 ≤ c₁) (h1 : c₁ ≤ 1) (h2 : 0 ≤ c₂) (h3 : c₂ ≤ 1) (hle : c₁ ≤ c₂) :
    0 ≤ normChannel c₁ ∧ normChannel c₁ ≤ 255 ∧
    normChannel c₁ = roundHalfAwayFromZero (c₁ * 255) ∧
    normChannel c₁ ≤ normChannel c₂ := by
  simp only [normChannel, jsRound]
  refine ⟨Int.le_floor.mpr (by push_cast; nlinarith), ?_, ?_, ?_⟩
  · have hlt : c₁ * 255 + 1 / 2 < ((256 : ℤ) : ℚ) := by push_cast; nlinarith
    have := Int.floor_lt.mpr hlt
    omega
  · have hnn : ¬ (c₁ * 255 < 0) := by nlinarith
    rw [roundHalfAwayFromZero, if_neg hnn]
  · exact Int.floor_mono (by nlinarith)

/-- Witness for C5 at the scenario channels 0.39 and 1. -/
theorem c5_channel_normalization_witness :
    0 ≤ normChannel (39/100) ∧ normChannel (39/100) ≤ 255 ∧
    normChannel (39/100) = roundHalfAwayFromZero ((39/100) * 255) ∧
    normChannel (39/100) ≤ normChannel 1 :=
  c5_channel_normalization (39/100) 1 (by norm_num) (by norm_num)
    (by norm_num) (by norm_num) (by norm_num)

/-- C10: extraction never returns null, so the null-check guards at both
    call sites of the source are unreachable and the extraction loop maps
    every input node, selection entry or container child, to exactly one
    output entry in input order. -/
theorem c10_extract_total :
    (∀ n : HostNode, (extractNodeData n).isSome = true) ∧
    (∀ l : List HostNode,
      extractList l = l.map (fun n => (extractNodeData n).getD defaultExtracted)) :=
  ⟨extractNodeData_isSome, extractList_eq_map⟩

/-- C7: an empty selection posts the explicit user-facing no-selection
    message and returns before extraction; a non-empty selection extracts
    every selected node in selection order. -/
theorem c7_selection_walker (sel : List HostNode) (page : PageInfo) :
    (sel = [] →
      processSelection sel page =
        .postedError "Please select at least one object to export") ∧
    (sel ≠ [] →
      processSelection sel page = .dataReady (extractList sel) page ∧
      extractList sel = sel.map (fun n => (extractNodeData n).getD defaultExtracted)) := by
  constructor
  · intro h
    simp [processSelection, h]
  · intro h
    have hlen : sel.length ≠ 0 := by simpa using h
    exact ⟨by simp [processSelection, hlen], extractList_eq_map sel⟩

/-- Witness for C7 on the empty selection and a one-node selection. -/
theorem c7_selection_walker_witness :
    processSelection [] testPage =
      .postedError "Please select at least one object to export" ∧
    processSelection [widgetHost] testPage =
      .dataReady (extractList [widgetHost]) testPage :=
  ⟨(c7_selection_walker [] testPage).1 rfl,
   ((c7_selection_walker [widgetHost] testPage).2 (by simp)).1⟩

/-- C6: a host node whose type tag is outside the supported set extracts,
    without failing, to the base-only record: identity, geometry and
    visibility preserved, every variant field and the children field
    absent. -/
theorem c6_unsupported_base_only (n : HostNode)
    (h : n.props.type ∉ supportedNodeTypes) :
    extractNodeData n = some (.mk (baseData n.props) none) ∧
    (baseData n.props).fills = none ∧
    (baseData n.props).strokes = none ∧
    (baseData n.props).strokeWeight = none ∧
    (baseData n.props).text = none ∧
    (baseData n.props).cornerRadius = none ∧
    (baseData n.props).shapeType = none ∧
    (baseData n.props).connectorStart = none ∧
    (baseData n.props).connectorEnd = none ∧
    (baseData n.props).id = n.props.id ∧
    (baseData n.props).name = n.props.name ∧
    (baseData n.props).type = n.props.type ∧
    (baseData n.props).x = n.props.x ∧
    (baseData n.props).y = n.props.y ∧
    (baseData n.props).width = n.props.width.getD 0 ∧
    (baseData n.props).height = n.props.height.getD 0 ∧
    (baseData n.props).rotation = n.props.rotation.getD 0 ∧
    (baseData n.props).visible = n.props.visible := by
  obtain ⟨p, cs⟩ := n
  simp only [supportedNodeTypes, List.mem_cons, List.not_mem_nil, or_false,
    not_or, HostNode.props] at h
  obtain ⟨h1, h2, h3, h4, h5, h6, h7, h8, h9⟩ := h
  refine ⟨?_, by simp [baseData], by simp [baseData], by simp [baseData],
    by simp [baseData], by simp [baseData], by simp [baseData],
    by simp [baseData], by simp [baseData], by simp [baseData],
    by simp [baseData], by simp [baseData], by simp [baseData],
    by simp [baseData], by simp [baseData], by simp [baseData],
    by simp [baseData], by simp [baseData]⟩
  simp only [extractNodeData, HostNode.props]
  rw [if_neg h1, if_neg h2, if_neg h3, if_neg h4, if_neg h5, if_neg h6,
    if_neg h7, if_neg (by simp [h8, h9])]

/-- Witness for C6 on a WIDGET node. -/
theorem c6_unsupported_base_only_witness :
    extractNodeData widgetHost = some (.mk (baseData widgetHost.props) none) ∧
    (baseData widgetHost.props).fills = none ∧
    (baseData widgetHost.props).strokes = none ∧
    (baseData widgetHost.props).strokeWeight = none ∧
    (baseData widgetHost.props).text = none ∧
    (baseData widgetHost.props).cornerRadius = none ∧
    (baseData widgetHost.props).shapeType = none ∧
    (baseData widgetHost.props).connectorStart = none ∧
    (baseData widgetHost.props).connectorEnd = none ∧
    (baseData widgetHost.props).id = widgetHost.props.id ∧
    (baseData widgetHost.props).name = widgetHost.props.name ∧
    (baseData widgetHost.props).type = widgetHost.props.type ∧
    (baseData widgetHost.props).x = widgetHost.props.x ∧
    (baseData widgetHost.props).y = widgetHost.props.y ∧
    (baseData widgetHost.props).width = widgetHost.props.width.getD 0 ∧
    (baseData widgetHost.props).height = widgetHost.props.height.getD 0 ∧
    (baseData widgetHost.props).rotation = widgetHost.props.rotation.getD 0 ∧
    (baseData widgetHost.props).visible = widgetHost.props.visible :=
  c6_unsupported_base_only widgetHost (by decide)

/-- Counterexample to C2: the lookup table has a tenth entry, LINE, which
    is not among the nine listed tags yet maps to "line", not to the
    "shape" fallback the claim requires for unlisted tags. -/
theorem c2_type_mapping_cex :
    mapNodeTypeToPPTX "LINE" = "line" ∧
    "LINE" ∉ ["RECTANGLE", "ELLIPSE", "POLYGON", "SHAPE_WITH_TEXT", "STICKY",
              "TEXT", "CONNECTOR", "GROUP", "FRAME"] ∧
    ("line" : String) ≠ "shape" := by
  refine ⟨rfl, by decide, by decide⟩

/-- C2 as amended: the lookup table has exactly the ten entries of the
    source, the nine listed ones plus LINE to "line", and every tag
    outside those ten maps to the "shape" fallback, never an error. -/
theorem c2_type_mapping (s : String) (h : s ∉ pptxTypeMapping.map Prod.fst) :
    mapNodeTypeToPPTX "RECTANGLE" = "rectangle" ∧
    mapNodeTypeToPPTX "ELLIPSE" = "ellipse" ∧
    mapNodeTypeToPPTX "POLYGON" = "polygon" ∧
    mapNodeTypeToPPTX "SHAPE_WITH_TEXT" = "shape" ∧
    mapNodeTypeToPPTX "STICKY" = "textbox" ∧
    mapNodeTypeToPPTX "TEXT" = "text" ∧
    mapNodeTypeToPPTX "CONNECTOR" = "line" ∧
    mapNodeTypeToPPTX "GROUP" = "group" ∧
    mapNodeTypeToPPTX "FRAME" = "frame" ∧
    mapNodeTypeToPPTX "LINE" = "line" ∧
    mapNodeTypeToPPTX s = "shape" := by
  simp only [pptxTypeMapping, List.map_cons, List.map_nil, List.mem_cons,
    List.not_mem_nil, or_false, not_or] at h
  obtain ⟨h1, h2, h3, h4, h5, h6, h7, h8, h9, h10⟩ := h
  refine ⟨rfl, rfl, rfl, rfl, rfl, rfl, rfl, rfl, rfl, rfl, ?_⟩
  simp [mapNodeTypeToPPTX, pptxTypeMapping, List.lookup, jsOrStr,
    beq_eq_false_iff_ne.mpr h1, beq_eq_false_iff_ne.mpr h2,
    beq_eq_false_iff_ne.mpr h3, beq_eq_false_iff_ne.mpr h4,
    beq_eq_false_iff_ne.mpr h5, beq_eq_false_iff_ne.mpr h6,
    beq_eq_false_iff_ne.mpr h7, beq_eq_false_iff_ne.mpr h8,
    beq_eq_false_iff_ne.mpr h9, beq_eq_false_iff_ne.mpr h10]

/-- Witness for C2 at the unlisted tag WIDGET. -/
theorem c2_type_mapping_witness :
    mapNodeTypeToPPTX "RECTANGLE" = "rectangle" ∧
    mapNodeTypeToPPTX "ELLIPSE" = "ellipse" ∧
    mapNodeTypeToPPTX "POLYGON" = "polygon" ∧
    mapNodeTypeToPPTX "SHAPE_WITH_TEXT" = "shape" ∧
    mapNodeTypeToPPTX "STICKY" = "textbox" ∧
    mapNodeTypeToPPTX "TEXT" = "text" ∧
    mapNodeTypeToPPTX "CONNECTOR" = "line" ∧
    mapNodeTypeToPPTX "GROUP" = "group" ∧
    mapNodeTypeToPPTX "FRAME" = "frame" ∧
    mapNodeTypeToPPTX "LINE" = "line" ∧
    mapNodeTypeToPPTX "WIDGET" = "shape" :=
  c2_type_mapping "WIDGET" (by decide)

/-- The text update leaves fill and stroke untouched. -/
theorem applyText_keeps (p : NodeProps) (s : PPTXShape) :
    (applyText p s).fill = s.fill ∧ (applyText p s).stroke = s.stroke := by
  unfold applyText
  split
  · split <;> exact ⟨rfl, rfl⟩
  · exact ⟨rfl, rfl⟩

/-- The cornerRadius update leaves fill and stroke untouched. -/
theorem applyCornerRadius_keeps (p : NodeProps) (s : PPTXShape) :
    (applyCornerRadius p s).fill = s.fill ∧ (applyCornerRadius p s).stroke = s.stroke := by
  unfold applyCornerRadius
  split <;> exact ⟨rfl, rfl⟩

/-- The shapeType update leaves fill and stroke untouched. -/
theorem applyShapeType_keeps (p : NodeProps) (s : PPTXShape) :
    (applyShapeType p s).fill = s.fill ∧ (applyShapeType p s).stroke = s.stroke := by
  unfold applyShapeType
  split
  · split <;> exact ⟨rfl, rfl⟩
  · exact ⟨rfl, rfl⟩

/-- The stroke update leaves the fill untouched. -/
theorem applyStroke_fill (p : NodeProps) (s : PPTXShape) : (applyStroke p s).fill = s.fill := by
  unfold applyStroke
  split
  · split
    · rfl
    · split <;> rfl
  · rfl

/-- The fill update leaves the stroke untouched. -/
theorem applyFill_stroke (p : NodeProps) (s : PPTXShape) : (applyFill p s).stroke = s.stroke := by
  unfold applyFill
  split
  · split <;> rfl
  · rfl

/-- The fill of the shape record is determined by the first paint of the
    fills list alone: a solid or gradient head is restructured, any other
    situation leaves the fill as it was. -/
theorem applyFill_fill (p : NodeProps) (s : PPTXShape) :
    (applyFill p s).fill = match p.fills with
      | some (.solid c op :: _) =>
        some { type := "solid", color := some c, opacity := some op }
      | some (.gradient _ stops op :: _) =>
        some { type := "gradient", opacity := some op, gradientStops := some stops }
      | _ => s.fill := by
  unfold applyFill
  rcases hf : p.fills with _ | fl
  · rfl
  · rcases fl with _ | ⟨f, rest⟩
    · rfl
    · cases f <;> rfl

/-- The stroke of the shape record is determined by the first stroke
    paint, the strokeWeight field and its truthiness alone. -/
theorem applyStroke_stroke (p : NodeProps) (s : PPTXShape) :
    (applyStroke p s).stroke = match p.strokes, p.strokeWeight with
      | some (.solid c op :: _), some w =>
        if w = 0 then s.stroke else some { color := c, width := w, opacity := some op }
      | _, _ => s.stroke := by
  unfold applyStroke
  rcases hs : p.strokes with _ | sl
  · rcases p.strokeWeight with _ | w <;> rfl
  · rcases sl with _ | ⟨st, rest⟩
    · rcases p.strokeWeight with _ | w <;> rfl
    · rcases p.strokeWeight with _ | w
      · cases st <;> rfl
      · cases st <;> (first | rfl | (by_cases hw : w = 0 <;> simp [hw]))

/-- Counterexample to C3: a shape record carries no fill although its
    fills list is nonempty, because the first fill is an image paint, and
    no stroke although its strokes list is nonempty, because strokeWeight
    is unset. -/
theorem c3_first_paint_only_cex :
    (imageFillProps.fills = some [.image (some "hash") "FILL" 1] ∧
     (nodeToShape (.mk imageFillProps none)).fill = none) ∧
    (noWeightProps.strokes = some [.solid ⟨1, 2, 3⟩ 1] ∧
     noWeightProps.strokeWeight = none ∧
     (nodeToShape (.mk noWeightProps none)).stroke = none) :=
  ⟨⟨rfl, rfl⟩, ⟨rfl, rfl, rfl⟩⟩

/-- C3 as amended: the shape record carries a fill exactly when the fills
    list is nonempty and its first element is a solid or gradient paint,
    restructured from that first element only, and a stroke exactly when
    the strokes list is nonempty, strokeWeight is set and nonzero, and the
    first stroke is solid; later paints never contribute. -/
theorem c3_first_paint_only (node : ExtractedNodeData) :
    ((nodeToShape node).fill = match node.props.fills with
      | some (.solid c op :: _) =>
        some { type := "solid", color := some c, opacity := some op }
      | some (.gradient _ stops op :: _) =>
        some { type := "gradient", opacity := some op, gradientStops := some stops }
      | _ => none) ∧
    ((nodeToShape node).stroke = match node.props.strokes, node.props.strokeWeight with
      | some (.solid c op :: _), some w =>
        if w = 0 then none else some { color := c, width := w, opacity := some op }
      | _, _ => none) := by
  obtain ⟨p, ch⟩ := node
  simp only [nodeToShape, ExtractedNodeData.props,
    (applyShapeType_keeps _ _).1, (applyShapeType_keeps _ _).2,
    (applyCornerRadius_keeps _ _).1, (applyCornerRadius_keeps _ _).2,
    (applyText_keeps _ _).1, (applyText_keeps _ _).2,
    applyStroke_fill, applyFill_stroke, applyFill_fill, applyStroke_stroke,
    baseShape]
  exact ⟨trivial, trivial⟩

/-- Counterexample to C1: on the scenario Rectangle the shape record's
    fill colour has green channel 99, because Math.round(0.39 * 255)
    rounds 99.45 down, not the 100 the claim states. -/
theorem c1_rectangle_scenario_cex :
    (nodeToShape c1Extracted).fill
      = some { type := "solid", color := some ⟨255, 99, 51⟩, opacity := some 1 } ∧
    RGB.mk 255 99 51 ≠ RGB.mk 255 100 51 := by
  have h99 : normChannel (39/100) = 99 := by norm_num [normChannel, jsRound]
  have h255 : normChannel 1 = 255 := by norm_num [normChannel, jsRound]
  have h51 : normChannel (5 : ℚ)⁻¹ = 51 := by norm_num [normChannel, jsRound]
  refine ⟨?_, by decide⟩
  simp [c1Extracted, c1Host, extractNodeData, baseData, extractRectangleData,
    extractFills, extractStrokes, h99, h255, h51, nodeToShape, applyFill,
    applyStroke, applyText, applyCornerRadius, applyShapeType, baseShape,
    propsWithCornerRadius, mapNodeTypeToPPTX, pptxTypeMapping, jsOrStr,
    List.lookup, ExtractedNodeData.props, List.filter, RawPaint.visibleFlag]

/-- C1 as amended: the scenario Rectangle extracts successfully and its
    shape record has type "rectangle", a solid fill with colour
    (r=255, g=99, b=51) at opacity 1, and cornerRadius 8 in its
    properties object. -/
theorem c1_rectangle_scenario :
    extractNodeData c1Host = some c1Extracted ∧
    (nodeToShape c1Extracted).type = "rectangle" ∧
    (nodeToShape c1Extracted).fill
      = some { type := "solid", color := some ⟨255, 99, 51⟩, opacity := some 1 } ∧
    (nodeToShape c1Extracted).properties = some { cornerRadius := some 8 } := by
  have h99 : normChannel (39/100) = 99 := by norm_num [normChannel, jsRound]
  have h255 : normChannel 1 = 255 := by norm_num [normChannel, jsRound]
  have h51 : normChannel (5 : ℚ)⁻¹ = 51 := by norm_num [normChannel, jsRound]
  refine ⟨?_, ?_, ?_, ?_⟩ <;>
    simp [c1Extracted, c1Host, extractNodeData, baseData, extractRectangleData,
      extractFills, extractStrokes, h99, h255, h51, nodeToShape, applyFill,
      applyStroke, applyText, applyCornerRadius, applyShapeType, baseShape,
      propsWithCornerRadius, mapNodeTypeToPPTX, pptxTypeMapping, jsOrStr,
      List.lookup, ExtractedNodeData.props, List.filter, RawPaint.visibleFlag]

/-- Counterexample to C8: a gradient type tag consisting of a less-than
    sign is inserted verbatim into the type attribute of the gradient
    element, although escaping it would have produced the entity. -/
theorem c8_escaping_cex :
    nodeToXML (.mk gradientLtProps none) 0 =
      "<shape>\n  <type>rectangle</type>\n  <id>g</id>\n  <name>g</name>\n"
      ++ "  <geometry>\n    <position x=\"0\" y=\"0\"/>\n"
      ++ "    <size width=\"0\" height=\"0\"/>\n    <rotation degrees=\"0\"/>\n"
      ++ "  </geometry>\n  <fill>\n    <gradient type=\"<\">\n    </gradient>\n"
      ++ "  </fill>\n</shape>\n" ∧
    escapeXML "<" = "&lt;" :=
  ⟨rfl, rfl⟩

/-- C8 as amended: strings routed through the escape helper receive
    exactly the five replacements with the ampersand pass first, CDATA
    text is emitted byte for byte, but the gradient type attribute value
    is inserted verbatim, without the replacements. -/
theorem c8_escaping (p : NodeProps) (spaces t gt : String)
    (stops : List GradientStop) (op : ℚ) (rest : List ExtractedPaint)
    (ht : p.text = some t) (htne : t ≠ "")
    (hf : p.fills = some (.gradient gt stops op :: rest)) :
    textBlock p spaces = spaces ++ "  <text><![CDATA[" ++ t ++ "]]></text>\n" ∧
    fillBlock p spaces =
      spaces ++ "  <fill>\n" ++ spaces ++ "    <gradient type=\"" ++ gt ++ "\">\n"
      ++ String.join (stops.map (stopLine spaces))
      ++ spaces ++ "    </gradient>\n" ++ spaces ++ "  </fill>\n" ∧
    escapeXML "A & B <test> \"quote\"" = "A &amp; B &lt;test&gt; &quot;quote&quot;" ∧
    escapeXML "<" = "&lt;" ∧
    escapeXML (String.singleton aposChar) = "&apos;" := by
  refine ⟨?_, ?_, rfl, rfl, rfl⟩
  · simp [textBlock, ht, htne]
  · simp [fillBlock, hf, String.append_assoc]

/-- Witness for C8 on a sticky note with text and a linear gradient. -/
theorem c8_escaping_witness :
    textBlock cdataWitnessProps "" = "" ++ "  <text><![CDATA[" ++ "T & T" ++ "]]></text>\n" ∧
    fillBlock cdataWitnessProps "" =
      "" ++ "  <fill>\n" ++ "" ++ "    <gradient type=\"" ++ "GRADIENT_LINEAR" ++ "\">\n"
      ++ String.join (List.map (stopLine "") [])
      ++ "" ++ "    </gradient>\n" ++ "" ++ "  </fill>\n" ∧
    escapeXML "A & B <test> \"quote\"" = "A &amp; B &lt;test&gt; &quot;quote&quot;" ∧
    escapeXML "<" = "&lt;" ∧
    escapeXML (String.singleton aposChar) = "&apos;" :=
  c8_escaping cdataWitnessProps "" "T & T" "GRADIENT_LINEAR" [] 1 [] rfl (by decide) rfl

/-- Counterexample to C9: a node whose strokeWeight field is set to zero
    gets a stroke element whose weight attribute is 1, not the set value. -/
theorem c9_stroke_weight_cex :
    zeroWeightProps.strokeWeight = some 0 ∧
    nodeToXML (.mk zeroWeightProps none) 0 =
      "<shape>\n  <type>line</type>\n  <id>c</id>\n  <name>c</name>\n"
      ++ "  <geometry>\n    <position x=\"0\" y=\"0\"/>\n"
      ++ "    <size width=\"0\" height=\"0\"/>\n    <rotation degrees=\"0\"/>\n"
      ++ "  </geometry>\n  <stroke weight=\"1\">\n"
      ++ "    <color r=\"0\" g=\"0\" b=\"0\" opacity=\"1\"/>\n  </stroke>\n</shape>\n" ∧
    (0 : ℚ) ≠ 1 :=
  ⟨rfl, rfl, by norm_num⟩

/-- C9 as amended: a nonempty strokes list always emits a stroke element
    rendering only the first stroke; its weight attribute is strokeWeight
    when that field is set and nonzero and 1 when it is unset or zero; a
    gradient first fill emits its stops as child elements in stop order. -/
theorem c9_stroke_weight (p p₂ : NodeProps) (spaces : String) (st : ExtractedPaint)
    (rest rest₂ : List ExtractedPaint) (w : ℚ) (gt : String)
    (stops : List GradientStop) (op : ℚ)
    (h : p.strokes = some (st :: rest)) (hw : w ≠ 0)
    (hf : p₂.fills = some (.gradient gt stops op :: rest₂)) :
    strokeBlock p spaces =
      spaces ++ "  <stroke weight=\"" ++ qStr (jsOrOpt p.strokeWeight 1) ++ "\">\n"
      ++ (match st with
          | .solid c sop =>
            spaces ++ "    <color r=\"" ++ toString c.r ++ "\" g=\"" ++ toString c.g
              ++ "\" b=\"" ++ toString c.b ++ "\" opacity=\"" ++ qStr (jsOrQ sop 1) ++ "\"/>\n"
          | _ => "")
      ++ spaces ++ "  </stroke>\n" ∧
    jsOrOpt none (1 : ℚ) = 1 ∧
    jsOrOpt (some w) 1 = w ∧
    fillBlock p₂ spaces =
      spaces ++ "  <fill>\n" ++ spaces ++ "    <gradient type=\"" ++ gt ++ "\">\n"
      ++ String.join (stops.map (stopLine spaces))
      ++ spaces ++ "    </gradient>\n" ++ spaces ++ "  </fill>\n" := by
  refine ⟨?_, rfl, by simp [jsOrOpt, hw], ?_⟩
  · simp only [strokeBlock, h]
    cases st <;> rfl
  · simp [fillBlock, hf, String.append_assoc]

/-- Witness for C9 on an ellipse with a solid stroke of weight 2 and on a
    node with a linear gradient fill. -/
theorem c9_stroke_weight_witness :
    strokeBlock weightWitnessProps "" =
      "" ++ "  <stroke weight=\"" ++ qStr (jsOrOpt weightWitnessProps.strokeWeight 1) ++ "\">\n"
      ++ ("" ++ "    <color r=\"" ++ toString (1 : ℤ) ++ "\" g=\"" ++ toString (2 : ℤ)
          ++ "\" b=\"" ++ toString (3 : ℤ) ++ "\" opacity=\"" ++ qStr (jsOrQ 1 1) ++ "\"/>\n")
      ++ "" ++ "  </stroke>\n" ∧
    jsOrOpt none (1 : ℚ) = 1 ∧
    jsOrOpt (some (2 : ℚ)) 1 = 2 ∧
    fillBlock cdataWitnessProps "" =
      "" ++ "  <fill>\n" ++ "" ++ "    <gradient type=\"" ++ "GRADIENT_LINEAR" ++ "\">\n"
      ++ String.join (List.map (stopLine "") [])
      ++ "" ++ "    </gradient>\n" ++ "" ++ "  </fill>\n" :=
  c9_stroke_weight weightWitnessProps cdataWitnessProps "" (.solid ⟨1, 2, 3⟩ 1) [] [] 2
    "GRADIENT_LINEAR" [] 1 rfl (by norm_num) rfl
